import Mathlib

/-!
Shallow embedding of the service worker in src/service-worker.js.

The worker owns one named cache store, precaches assets at install time
from the build asset manifest, deletes stale stores at activate time, and
applies a cache-first policy with runtime population to intercepted GET
requests.  Asynchronous platform effects are made explicit: the network is
an oracle passed as an argument, a fallible fetch is an outcome value, and
the cache store is threaded through as state.
-/

set_option maxHeartbeats 1000000

/-- Version-tagged name of the current cache store (source line 6). -/
def CACHE_NAME : String := "hob-tools-v2"

/-- The static core asset list, always attempted at install (source lines 7-14). -/
def CORE_URLS : List String :=
  ["/", "/index.html", "/manifest.json", "/favicon.ico", "/logo192.svg", "/logo512.svg"]

/-- A response as the worker observes it: HTTP status, response type
("basic" for same-origin, "opaque" for cross-origin, "error" for a
synthetic network failure), and a body.  Bodies are modelled as immutable
values. -/
structure Response where
  status : Nat
  rtype : String
  body : String
  deriving DecidableEq, Repr

/-- The synthetic network-error response produced by the platform call on
source lines 72, 96 and 98: status 0, type "error", empty body. -/
def Response.error : Response := ⟨0, "error", ""⟩

/-- A response body can be consumed only once on the platform, so the code
clones before persisting (source line 89).  Bodies here are immutable
values, so the clone is an equal value. -/
def Response.clone (r : Response) : Response := r

/-- An intercepted request: method, URL, mode ("navigate" for a full page
load) and destination classification ("document", "script", ...). -/
structure Request where
  method : String
  url : String
  mode : String
  destination : String
  deriving DecidableEq, Repr

/-- The named cache store: an association list from request identity to the
stored response.  Requests handled by this worker are GET-only, so the URL
is the identity. -/
abbrev CacheStore := List (String × Response)

/-- Lookup by exact identity, the model of cache.match. -/
def matchUrl (c : CacheStore) (u : String) : Option Response :=
  match c with
  | [] => none
  | (k, v) :: rest => if k = u then some v else matchUrl rest u

/-- Model of cache.put: overwrite the entry for the key when present,
otherwise append a new entry. -/
def putEntry (c : CacheStore) (u : String) (r : Response) : CacheStore :=
  match c with
  | [] => [(u, r)]
  | (k, v) :: rest => if k = u then (k, r) :: rest else (k, v) :: putEntry rest u r

/-- The keys currently present in a store. -/
def storeKeys (c : CacheStore) : List String := c.map Prod.fst

/-- Model of cache.addAll over a pure network oracle assigning each URL its
fetched response: each listed URL is fetched and put.  The bulk insert is
modelled as succeeding; a per-URL fetch failure inside addAll is outside
this development, no claim depends on it. -/
def addAll (net : String → Response) (c : CacheStore) (urls : List String) : CacheStore :=
  urls.foldl (fun acc u => putEntry acc u (net u)) c

/-- A parsed asset manifest: optionally a files object, a finite map from
logical names to output URLs.  Source line 21 reads Object.values of it;
a falsy manifest or an absent files field is the none case. -/
structure Manifest where
  files : Option (List (String × String))
  deriving DecidableEq, Repr

/-- Object.values of manifest.files, empty when the manifest is falsy or
the files field is absent (source line 21). -/
def filesValues (m : Manifest) : List String :=
  match m.files with
  | some fs => fs.map Prod.snd
  | none => []

/-- Outcome of the install-time manifest fetch and parse (source lines
18-20): the fetch may reject (network error), resolve with a non-success
status (res.ok false), reject while parsing the JSON body, or produce a
parsed manifest. -/
inductive ManifestResult where
  | fetchReject
  | notOk
  | parseReject
  | parsed (m : Manifest)
  deriving DecidableEq, Repr

/-- Model of precacheFromManifest (source lines 16-28).  On a parsed
manifest the core list is concatenated with the manifest file values,
falsy (empty) entries are discarded by filter(Boolean), and the result is
bulk-inserted (lines 21-23).  A resolved non-success status returns early
without inserting anything (line 19).  A rejection of the fetch or of the
JSON parse is caught and the core list alone is inserted (lines 24-27). -/
def precacheFromManifest (outcome : ManifestResult) (net : String → Response)
    (cache : CacheStore) : CacheStore :=
  match outcome with
  | .notOk => cache
  | .fetchReject => addAll net cache CORE_URLS
  | .parseReject => addAll net cache CORE_URLS
  | .parsed m => addAll net cache ((CORE_URLS ++ filesValues m).filter (fun s => !(s == "")))

/-- The origin cache registry: the named cache stores (caches in the
source), as an association list from store name to store. -/
abbrev Registry := List (String × CacheStore)

/-- Model of caches.delete: remove the store of the given name. -/
def deleteCache (reg : Registry) (name : String) : Registry :=
  reg.filter (fun p => !(p.1 == name))

/-- Model of the activate handler (source lines 41-53): enumerate the
registry keys and delete every store whose name differs from CACHE_NAME;
a key equal to CACHE_NAME is left alone (line 47). -/
def activate (reg : Registry) : Registry :=
  (reg.map Prod.fst).foldl (fun acc key => if key = CACHE_NAME then acc else deleteCache acc key) reg

/-- Outcome of the live network fetch for one request: the promise either
resolves with a response or rejects. -/
inductive FetchOutcome where
  | resolved (r : Response)
  | rejected
  deriving DecidableEq, Repr

/-- Result of one run of the fetch handler when it registers a response:
the response delivered to the page, the cache store afterwards, and
whether a network fetch was attempted. -/
structure HandlerOutput where
  response : Response
  store : CacheStore
  networkCalled : Bool
  deriving DecidableEq, Repr

/-- Model of the fetch listener (source lines 55-102).  A none result
means no response was registered and the request passes through
untouched (line 58).  putOk says whether the unawaited cache.put on
source line 89 succeeds; the truthiness guard on the response object at
line 88 is dropped because a resolved fetch response is always truthy. -/
def handleFetch (request : Request) (store : CacheStore) (net : FetchOutcome)
    (putOk : Bool) : Option HandlerOutput :=
  if request.method ≠ "GET" then none
  else if request.mode = "navigate" then
    match net with
    | .resolved networkResponse => some ⟨networkResponse, store, true⟩
    | .rejected =>
        match matchUrl store "/index.html" with
        | some cached => some ⟨cached, store, true⟩
        | none => some ⟨Response.error, store, true⟩
  else
    match matchUrl store request.url with
    | some cached => some ⟨cached, store, false⟩
    | none =>
        match net with
        | .resolved response =>
            if response.status = 200 ∧ response.rtype = "basic" then
              some ⟨response, if putOk then putEntry store request.url response.clone else store, true⟩
            else some ⟨response, store, true⟩
        | .rejected =>
            if request.destination = "document" then
              match matchUrl store "/index.html" with
              | some fallback => some ⟨fallback, store, true⟩
              | none => some ⟨Response.error, store, true⟩
            else some ⟨Response.error, store, true⟩

/-- A concrete network oracle for closed evaluations: every URL fetches a
status-200 same-origin response whose body is the URL itself. -/
def netDummy : String → Response := fun u => ⟨200, "basic", u⟩

/-- The manifest of the first install scenario: the files map sends
main.js to /static/main.abc123.js. -/
def scenario1Manifest : Manifest := ⟨some [("main.js", "/static/main.abc123.js")]⟩

/-- A concrete non-navigation script request used for closed instances. -/
def reqScript : Request := ⟨"GET", "/static/main.abc123.js", "no-cors", "script"⟩

/-- A concrete non-navigation image request used for closed instances. -/
def reqImage : Request := ⟨"GET", "/logo192.svg", "no-cors", "image"⟩

/-- A concrete navigation request used for closed instances. -/
def reqNav : Request := ⟨"GET", "/some/page", "navigate", "document"⟩

/-- A concrete non-GET request used for closed instances. -/
def reqPost : Request := ⟨"POST", "/api/submit", "cors", ""⟩

/-- A concrete same-origin success response used for closed instances. -/
def respBasic : Response := ⟨200, "basic", "payload"⟩

/-- First supporting lemma: putting a key either leaves the key list
unchanged (overwrite) or appends the new key at the end. -/
theorem storeKeys_putEntry (c : CacheStore) (u : String) (r : Response) :
    storeKeys (putEntry c u r) =
      if u ∈ storeKeys c then storeKeys c else storeKeys c ++ [u] := by
  induction c with
  | nil => simp [putEntry, storeKeys]
  | cons p rest ih =>
      obtain ⟨k, v⟩ := p
      by_cases hk : k = u
      · subst hk
        simp [putEntry, storeKeys]
      · simp only [storeKeys] at ih
        by_cases hu : u ∈ List.map Prod.fst rest
        · simp [putEntry, storeKeys, hk, ih, hu, Ne.symm hk]
        · simp [putEntry, storeKeys, hk, ih, hu, Ne.symm hk]

/-- Membership in the keys after a bulk insert: exactly the old keys plus
the inserted URLs. -/
theorem mem_storeKeys_addAll (net : String → Response) (l : List String)
    (c : CacheStore) (u : String) :
    u ∈ storeKeys (addAll net c l) ↔ u ∈ storeKeys c ∨ u ∈ l := by
  induction l generalizing c with
  | nil => simp [addAll]
  | cons a l ih =>
      simp only [addAll, List.foldl_cons] at ih ⊢
      rw [ih (putEntry c a (net a)), storeKeys_putEntry]
      by_cases h : a ∈ storeKeys c
      · simp only [if_pos h, List.mem_cons]
        constructor
        · rintro (hc | hl)
          · exact Or.inl hc
          · exact Or.inr (Or.inr hl)
        · rintro (hc | rfl | hl)
          · exact Or.inl hc
          · exact Or.inl h
          · exact Or.inr hl
      · simp only [if_neg h, List.mem_append, List.mem_singleton, List.mem_cons]
        tauto

/-- A bulk insert preserves distinctness of the key list. -/
theorem nodup_storeKeys_addAll (net : String → Response) (l : List String)
    (c : CacheStore) (h : (storeKeys c).Nodup) :
    (storeKeys (addAll net c l)).Nodup := by
  induction l generalizing c with
  | nil => simpa [addAll] using h
  | cons a l ih =>
      simp only [addAll, List.foldl_cons] at ih ⊢
      apply ih
      rw [storeKeys_putEntry]
      by_cases ha : a ∈ storeKeys c
      · simpa [ha] using h
      · simp [ha, List.nodup_append, h]

/-- Putting a key absent from the store appends exactly one new entry. -/
theorem putEntry_of_matchUrl_none (c : CacheStore) (u : String) (r : Response)
    (h : matchUrl c u = none) : putEntry c u r = c ++ [(u, r)] := by
  induction c with
  | nil => simp [putEntry]
  | cons p rest ih =>
      obtain ⟨k, v⟩ := p
      by_cases hk : k = u
      · simp [matchUrl, hk] at h
      · simp only [matchUrl, if_neg hk] at h
        simp [putEntry, hk, ih h]

/-- The fold of per-key deletes in the activate handler acts as a filter:
an entry survives when its name is the current one or is never enumerated. -/
theorem foldl_deleteCache (ks : List String) (acc : Registry) :
    ks.foldl (fun a key => if key = CACHE_NAME then a else deleteCache a key) acc =
      acc.filter (fun p => p.1 == CACHE_NAME || !(ks.contains p.1)) := by
  induction ks generalizing acc with
  | nil => simp
  | cons a ks ih =>
      simp only [List.foldl_cons]
      rw [ih]
      by_cases ha : a = CACHE_NAME
      · rw [if_pos ha]
        apply List.filter_congr
        intro p _
        subst ha
        by_cases hp : p.1 = CACHE_NAME
        · simp [hp]
        · simp [hp]
      · rw [if_neg ha]
        simp only [deleteCache, List.filter_filter]
        apply List.filter_congr
        intro p _
        by_cases h1 : p.1 = CACHE_NAME
        · have h2 : ¬(p.1 = a) := fun hpa => ha (hpa ▸ h1)
          have h3 : ¬(CACHE_NAME = a) := fun h => ha h.symm
          simp [h1, h2, h3]
        · by_cases h2 : p.1 = a
          · simp [h1, h2, ha]
          · simp [h1, h2]

/-- The activate handler keeps exactly the entries named CACHE_NAME. -/
theorem activate_eq_filter (reg : Registry) :
    activate reg = reg.filter (fun p => p.1 == CACHE_NAME) := by
  rw [activate, foldl_deleteCache]
  apply List.filter_congr
  intro p hp
  have hmem : (reg.map Prod.fst).contains p.1 = true := by
    simpa using List.mem_map_of_mem Prod.fst hp
  rw [hmem]
  simp

/-- C1 counterexample: run the install precache with the manifest fetch
resolving to a non-success status (HTTP 500) over a concrete network
oracle starting from a fresh store.  The store afterwards is empty, not
the six static core paths: source line 19 returns early on a non-ok
status instead of reaching the core-list fallback in the catch block. -/
theorem C1_counterexample :
    precacheFromManifest ManifestResult.notOk netDummy [] = ([] : CacheStore) ∧
    storeKeys (precacheFromManifest ManifestResult.notOk netDummy []) ≠ CORE_URLS := by
  refine ⟨rfl, ?_⟩
  decide

/-- C1 (amended): when the manifest fetch resolves with a non-success
status, the install precache inserts nothing and leaves the store exactly
as it was (in particular empty when install starts fresh); the fallback
that inserts the static core list fires only when the fetch or the JSON
parse rejects. -/
theorem C1_notOk_inserts_nothing (net : String → Response) (c : CacheStore) :
    precacheFromManifest ManifestResult.notOk net c = c ∧
    storeKeys (precacheFromManifest ManifestResult.fetchReject net []) = CORE_URLS ∧
    storeKeys (precacheFromManifest ManifestResult.parseReject net []) = CORE_URLS := by
  refine ⟨rfl, ?_, ?_⟩ <;>
    simp [precacheFromManifest, addAll, CORE_URLS, putEntry, storeKeys]

/-- C2: on a successfully fetched and parsed manifest, the keys inserted
into a fresh store are exactly the static core list merged with the
manifest file values, with empty (falsy) entries discarded, and the key
list holds no duplicates; in particular, for the manifest whose files map
sends main.js to /static/main.abc123.js the store holds exactly the six
core paths plus /static/main.abc123.js. -/
theorem C2_precache_merge (net : String → Response) (m : Manifest) :
    (∀ u, u ∈ storeKeys (precacheFromManifest (ManifestResult.parsed m) net []) ↔
        u ∈ (CORE_URLS ++ filesValues m).filter (fun s => !(s == ""))) ∧
    (storeKeys (precacheFromManifest (ManifestResult.parsed m) net [])).Nodup ∧
    storeKeys (precacheFromManifest (ManifestResult.parsed scenario1Manifest) netDummy []) =
      ["/", "/index.html", "/manifest.json", "/favicon.ico", "/logo192.svg", "/logo512.svg",
        "/static/main.abc123.js"] := by
  refine ⟨?_, ?_, ?_⟩
  · intro u
    rw [show precacheFromManifest (ManifestResult.parsed m) net [] =
          addAll net [] ((CORE_URLS ++ filesValues m).filter (fun s => !(s == ""))) from rfl,
        mem_storeKeys_addAll]
    simp [storeKeys]
  · exact nodup_storeKeys_addAll net _ [] (by simp [storeKeys])
  · decide

/-- C6: the activate handler deletes every named store in the registry
whose name differs from the current version and keeps the entries named
with the current version together with their contents; it is idempotent;
and with the two prior stores hob-tools-v1 and hob-tools-v0 present under
current version hob-tools-v2, both prior stores are deleted and the
hob-tools-v2 store remains untouched. -/
theorem C6_activate_cutover (reg : Registry) :
    activate reg = reg.filter (fun p => p.1 == CACHE_NAME) ∧
    activate (activate reg) = activate reg ∧
    ∀ s0 s1 s2 : CacheStore,
      activate [("hob-tools-v2", s2), ("hob-tools-v1", s1), ("hob-tools-v0", s0)] =
        [("hob-tools-v2", s2)] := by
  refine ⟨activate_eq_filter reg, ?_, ?_⟩
  · rw [activate_eq_filter reg, activate_eq_filter, List.filter_filter]
    exact List.filter_congr (fun p _ => by simp)
  · intro s0 s1 s2
    rw [activate_eq_filter]
    simp [CACHE_NAME]

/-- C3: for a non-navigation GET request whose identity is absent from the
store and whose network fetch resolves, a status-200 basic (same-origin)
response is persisted as exactly one appended clone while the original
response is returned to the caller; a resolved response with any other
status or a non-basic type is returned unmodified with nothing stored. -/
theorem C3_runtime_caching (req : Request) (store : CacheStore) (resp : Response)
    (hm : req.method = "GET") (hnav : req.mode ≠ "navigate")
    (hmiss : matchUrl store req.url = none) :
    (resp.status = 200 → resp.rtype = "basic" →
        handleFetch req store (FetchOutcome.resolved resp) true =
          some ⟨resp, store ++ [(req.url, resp.clone)], true⟩) ∧
    (¬(resp.status = 200 ∧ resp.rtype = "basic") →
        handleFetch req store (FetchOutcome.resolved resp) true =
          some ⟨resp, store, true⟩) := by
  constructor
  · intro h200 hbasic
    simp [handleFetch, hm, hnav, hmiss, h200, hbasic,
      putEntry_of_matchUrl_none store req.url _ hmiss]
  · intro hno
    simp [handleFetch, hm, hnav, hmiss, hno]

/-- C3 witness: a concrete uncached script request over an empty store and
a resolved 200 basic response is returned as-is while its clone is stored
under the request URL. -/
theorem C3_runtime_caching_witness :
    handleFetch reqScript [] (FetchOutcome.resolved respBasic) true =
      some ⟨respBasic, [] ++ [(reqScript.url, respBasic.clone)], true⟩ :=
  (C3_runtime_caching reqScript [] respBasic rfl (by decide) rfl).1 rfl rfl

/-- C4: for a non-navigation GET request whose exact identity is in the
store, the handler returns the stored response, leaves the store as it
is, and attempts no network call. -/
theorem C4_cache_first (req : Request) (store : CacheStore) (cached : Response)
    (net : FetchOutcome) (putOk : Bool)
    (hm : req.method = "GET") (hnav : req.mode ≠ "navigate")
    (hhit : matchUrl store req.url = some cached) :
    handleFetch req store net putOk = some ⟨cached, store, false⟩ := by
  simp [handleFetch, hm, hnav, hhit]

/-- C4 witness: a concrete image request whose URL is cached returns the
cached response with no network call. -/
theorem C4_cache_first_witness :
    handleFetch reqImage [(reqImage.url, respBasic)] FetchOutcome.rejected true =
      some ⟨respBasic, [(reqImage.url, respBasic)], false⟩ :=
  C4_cache_first reqImage [(reqImage.url, respBasic)] respBasic
    FetchOutcome.rejected true rfl (by decide) (by decide)

/-- C5: for a navigation GET request, a resolved network response is
returned unmodified whatever its status; on a rejected fetch the cached
root document /index.html is returned when present; and when the root
document is absent the synthetic network-error response is returned,
which has neither status 200 nor a body, and no exception is thrown. -/
theorem C5_navigation (req : Request) (store : CacheStore) (putOk : Bool)
    (hm : req.method = "GET") (hnav : req.mode = "navigate") :
    (∀ resp, handleFetch req store (FetchOutcome.resolved resp) putOk =
        some ⟨resp, store, true⟩) ∧
    (∀ cached, matchUrl store "/index.html" = some cached →
        handleFetch req store FetchOutcome.rejected putOk = some ⟨cached, store, true⟩) ∧
    (matchUrl store "/index.html" = none →
        handleFetch req store FetchOutcome.rejected putOk =
          some ⟨Response.error, store, true⟩ ∧
        Response.error.status ≠ 200 ∧ Response.error.body = "") := by
  refine ⟨?_, ?_, ?_⟩
  · intro resp
    simp [handleFetch, hm, hnav]
  · intro cached hhit
    simp [handleFetch, hm, hnav, hhit]
  · intro hmiss
    refine ⟨?_, by decide, rfl⟩
    simp [handleFetch, hm, hnav, hmiss]

/-- C5 witness: a concrete offline navigation over an empty store yields
the synthetic network-error response, which is not a status-200 response
and has no body. -/
theorem C5_navigation_witness :
    handleFetch reqNav [] FetchOutcome.rejected true =
      some ⟨Response.error, [], true⟩ ∧
    Response.error.status ≠ 200 ∧ Response.error.body = "" :=
  (C5_navigation reqNav [] true rfl rfl).2.2 rfl

/-- C7: for a non-navigation GET request absent from the store whose
network fetch rejects, a request classified as destination "document"
receives the cached root document /index.html, or the synthetic
network-error response when the root document is absent; every other
destination receives the synthetic network-error response. -/
theorem C7_runtime_offline (req : Request) (store : CacheStore) (putOk : Bool)
    (hm : req.method = "GET") (hnav : req.mode ≠ "navigate")
    (hmiss : matchUrl store req.url = none) :
    (req.destination = "document" →
        handleFetch req store FetchOutcome.rejected putOk =
          some ⟨(matchUrl store "/index.html").getD Response.error, store, true⟩) ∧
    (req.destination ≠ "document" →
        handleFetch req store FetchOutcome.rejected putOk =
          some ⟨Response.error, store, true⟩) := by
  constructor
  · intro hdoc
    cases hfb : matchUrl store "/index.html" with
    | some fallback => simp [handleFetch, hm, hnav, hmiss, hdoc, hfb]
    | none => simp [handleFetch, hm, hnav, hmiss, hdoc, hfb]
  · intro hother
    simp [handleFetch, hm, hnav, hmiss, hother]

/-- C7 witness: a concrete uncached document-destination request over an
empty store with a rejected fetch yields the synthetic network-error
response, since no root document is cached. -/
theorem C7_runtime_offline_witness :
    handleFetch ⟨"GET", "/frame", "no-cors", "document"⟩ [] FetchOutcome.rejected true =
      some ⟨(matchUrl [] "/index.html").getD Response.error, [], true⟩ :=
  (C7_runtime_offline ⟨"GET", "/frame", "no-cors", "document"⟩ [] true rfl
    (by decide) rfl).1 rfl

/-- C8: a request whose method is not GET is not intercepted at all: the
handler registers no response, so the request passes through with no
cache read, no cache write and no substitute response. -/
theorem C8_only_get (req : Request) (store : CacheStore) (net : FetchOutcome)
    (putOk : Bool) (hm : req.method ≠ "GET") :
    handleFetch req store net putOk = none := by
  simp [handleFetch, hm]

/-- C8 witness: a concrete POST request is left unhandled. -/
theorem C8_only_get_witness :
    handleFetch reqPost [] (FetchOutcome.resolved respBasic) true = none :=
  C8_only_get reqPost [] (FetchOutcome.resolved respBasic) true (by decide)

/-- C9: handling a navigation request never writes to the cache store:
whenever the handler registers a response for a request in navigate mode,
the store afterwards is exactly the store before. -/
theorem C9_navigation_no_write (req : Request) (store : CacheStore) (net : FetchOutcome)
    (putOk : Bool) (hnav : req.mode = "navigate") :
    ∀ o, handleFetch req store net putOk = some o → o.store = store := by
  intro o h
  by_cases hm : req.method = "GET"
  · cases net with
    | resolved r =>
        simp [handleFetch, hm, hnav] at h
        simp [← h]
    | rejected =>
        cases hfb : matchUrl store "/index.html" with
        | some fallback =>
            simp [handleFetch, hm, hnav, hfb] at h
            simp [← h]
        | none =>
            simp [handleFetch, hm, hnav, hfb] at h
            simp [← h]
  · simp [handleFetch, hm] at h

/-- C9 witness: a concrete offline navigation over the empty store leaves
the store empty. -/
theorem C9_navigation_no_write_witness :
    HandlerOutput.store ⟨Response.error, ([] : CacheStore), true⟩ = ([] : CacheStore) :=
  C9_navigation_no_write reqNav [] FetchOutcome.rejected true rfl
    ⟨Response.error, [], true⟩ (by decide)

/-- C10: the runtime cache write is not awaited, so the response the
handler delivers is identical whether the cache.put of source line 89
succeeds or fails; a failed write never changes or fails the delivered
response. -/
theorem C10_response_independent_of_put (req : Request) (store : CacheStore)
    (net : FetchOutcome) :
    Option.map HandlerOutput.response (handleFetch req store net true) =
      Option.map HandlerOutput.response (handleFetch req store net false) := by
  by_cases hm : req.method = "GET"
  · by_cases hnav : req.mode = "navigate"
    · cases net <;> simp [handleFetch, hm, hnav]
    · cases hcached : matchUrl store req.url with
      | some c => simp [handleFetch, hm, hnav, hcached]
      | none =>
          cases net with
          | resolved r =>
              by_cases hok : r.status = 200 ∧ r.rtype = "basic" <;>
                simp [handleFetch, hm, hnav, hcached, hok]
          | rejected => simp [handleFetch, hm, hnav, hcached]
  · simp [handleFetch, hm]
